import Mathlib

/-!
Shallow embedding of the hybrid-search RAG notebook
(`notebooks/03_Hybrid_Search_and_Retrieval.ipynb`).

The notebook's local logic consists of:
* `hybrid_search` — composes a fixed JSON hybrid-query payload, submits it
  (first with the `search_pipeline` request parameter, retrying once without
  it on a `TypeError`), and returns `response["hits"]["hits"]`;
* `generate_response_with_ollama` — renders a deterministic prompt from the
  query and the ordered hit list;
* the streaming relay cell — concatenates generation chunks in arrival order.

External collaborators (the OpenSearch engine and the Ollama generation
provider) are abstracted as function-valued records; the notebook's own code
is translated line by line below.
-/

namespace RAG

/-- JSON values, used for the search payload and for untyped hit metadata.
Numbers are modelled as rationals: the notebook only moves them around,
never computes with them. -/
inductive Json where
  | str : String → Json
  | num : Rat → Json
  | bool : Bool → Json
  | arr : List Json → Json
  | obj : List (String × Json) → Json

/-- Object-field access, `j[key]` on a JSON object. -/
def Json.getKey (j : Json) (key : String) : Option Json :=
  match j with
  | .obj fields => fields.lookup key
  | _ => none

/-- Repeated object-field access along a path of keys. -/
def Json.path (j : Json) : List String → Option Json
  | [] => some j
  | k :: ks =>
    match j.getKey k with
    | some j2 => j2.path ks
    | none => none

/-- The settings passed to the `OpenSearch(...)` constructor in the notebook:
`http_compress=True, timeout=30, max_retries=3, retry_on_timeout=True`. -/
structure ClientSettings where
  http_compress : Bool
  timeout : Nat
  max_retries : Nat
  retry_on_timeout : Bool
  deriving DecidableEq

/-- The concrete client construction from the notebook's connection cell. -/
def client_settings : ClientSettings :=
  { http_compress := true, timeout := 30, max_retries := 3, retry_on_timeout := true }

/-- The `_source` object of a hit: the indexed `text` field, the
`document_name` field, and any further stored fields. -/
structure HitSource where
  text : String
  document_name : String
  extra : List (String × Json)

/-- One search hit: relevance score (`_score`), source document (`_source`),
and any further per-hit metadata (`_index`, `_id`, ...). -/
structure Hit where
  score : Rat
  source : HitSource
  extra : List (String × Json)

/-- The `hits` section of an engine response: `response["hits"]` holds
`max_score` and the ranked array `response["hits"]["hits"]`. -/
structure HitsSection where
  max_score : Option Rat
  hits : List Hit

/-- A full engine response; `hybrid_search` only reads `.hits.hits`. -/
structure SearchResponse where
  took : Nat
  timed_out : Bool
  hits : HitsSection

/-- Errors raised by the client transport. `typeError` models Python's
`TypeError` (parameter incompatibility); everything else propagates. -/
inductive SearchError where
  | typeError : SearchError
  | connectionError : String → SearchError
  | notFound : String → SearchError
  | other : String → SearchError
  deriving DecidableEq

/-- One transport invocation as observed at the engine: the target index,
the request body, and the optional request parameters. -/
structure SearchCall where
  index : String
  body : Json
  params : Option (List (String × String))

/-- The OpenSearch client handle: its construction settings and its
`search(index=..., body=..., params=...)` method, abstracted as a function
into either a response or a raised error. -/
structure OpenSearchClient where
  config : ClientSettings
  search : String → Json → Option (List (String × String)) → Except SearchError SearchResponse

/-- The lexical sub-query of the payload:
`{"match": {"text": {"query": query_text}}}`. -/
def match_clause (query_text : String) : Json :=
  Json.obj [("match", Json.obj [("text", Json.obj [("query", Json.str query_text)])])]

/-- The vector sub-query of the payload:
`{"knn": {"embedding": {"vector": query_embedding, "k": top_k}}}`. -/
def knn_clause (query_embedding : List Rat) (top_k : Nat) : Json :=
  Json.obj [("knn", Json.obj [("embedding", Json.obj
    [("vector", Json.arr (query_embedding.map Json.num)),
     ("k", Json.num top_k)])])]

/-- The `query_body` dict built inside `hybrid_search`. -/
def query_body (query_text : String) (query_embedding : List Rat) (top_k : Nat) : Json :=
  Json.obj
    [ ("_source", Json.obj [("exclude", Json.arr [Json.str "embedding"])]),
      ("query", Json.obj
        [ ("hybrid", Json.obj
            [ ("queries", Json.arr
                [ match_clause query_text, knn_clause query_embedding top_k ]) ]) ]),
      ("size", Json.num top_k) ]

/-- The `params` argument of the first search attempt:
`{"search_pipeline": "nlp-search-pipeline"}`. -/
def pipeline_params : List (String × String) :=
  [("search_pipeline", "nlp-search-pipeline")]

/-- `hybrid_search`, instrumented with the list of transport calls it makes.
First attempt passes the pipeline parameter; a `TypeError` triggers exactly
one retry with the same index and body and no parameters; any other error,
and any error of the retry itself, propagates.  On success the function
returns `response["hits"]["hits"]`. -/
def hybrid_search_traced (client : OpenSearchClient) (index : String)
    (query_text : String) (query_embedding : List Rat) (top_k : Nat := 5) :
    Except SearchError (List Hit) × List SearchCall :=
  let body := query_body query_text query_embedding top_k
  match client.search index body (some pipeline_params) with
  | .ok response => (.ok response.hits.hits, [⟨index, body, some pipeline_params⟩])
  | .error .typeError =>
    match client.search index body none with
    | .ok response =>
      (.ok response.hits.hits,
       [⟨index, body, some pipeline_params⟩, ⟨index, body, none⟩])
    | .error e =>
      (.error e,
       [⟨index, body, some pipeline_params⟩, ⟨index, body, none⟩])
  | .error e => (.error e, [⟨index, body, some pipeline_params⟩])

/-- `hybrid_search` proper: the result component of the traced version. -/
def hybrid_search (client : OpenSearchClient) (index : String)
    (query_text : String) (query_embedding : List Rat) (top_k : Nat := 5) :
    Except SearchError (List Hit) :=
  (hybrid_search_traced client index query_text query_embedding top_k).1

/-- One rendered context block:
`f"Document {i + 1}:\n{result['_source']['text']}\n\n"`. -/
def document_block (i : Nat) (text : String) : String :=
  "Document " ++ toString (i + 1) ++ ":\n" ++ text ++ "\n\n"

/-- The `context` accumulation loop of `generate_response_with_ollama`:
`for i, result in enumerate(results): context += f"Document {i+1}:\n...\n\n"`. -/
def build_context (results : List Hit) : String :=
  results.enum.foldl
    (fun context p => context ++ document_block p.1 p.2.source.text) ""

/-- The fixed instruction preamble of the prompt f-string, up to the
interpolated context. -/
def prompt_intro : String :=
  "You are a helpful AI assistant. Use the following context to answer the question.\nIf you cannot find the answer in the context, say so.\n\nContext:\n"

/-- `generate_response_with_ollama`: renders the prompt from the query and
the ordered hit list and returns `(prompt, model_name)`. -/
def generate_response_with_ollama (query : String) (results : List Hit)
    (model_name : String) : String × String :=
  let context := build_context results
  let prompt :=
    prompt_intro ++ context ++ "\n\nQuestion: " ++ query ++ "\n\nAnswer: "
  (prompt, model_name)

/-- One streamed generation chunk; the relay reads `chunk['response']`. -/
structure GenChunk where
  response : String
  done : Bool
  deriving DecidableEq

/-- The Ollama generation provider: a streaming endpoint returning the
ordered chunk sequence, and a non-streaming endpoint returning one
completion string. -/
structure OllamaProvider where
  generate_stream : String → String → List GenChunk
  generate : String → String → String

/-- The streaming relay cell:
`response = ""; for chunk in ...: response += chunk['response']`. -/
def stream_relay (o : OllamaProvider) (model_name prompt : String) : String :=
  (o.generate_stream model_name prompt).foldl
    (fun response chunk => response ++ chunk.response) ""

/-- The context blocks in list form, for stating properties of the fold. -/
def context_blocks (results : List Hit) : List String :=
  results.enum.map (fun p => document_block p.1 p.2.source.text)

/-- Plain concatenation of a list of strings, the specification form of the
accumulation loops. -/
def concat_blocks : List String → String
  | [] => ""
  | s :: ss => s ++ concat_blocks ss

lemma foldl_append_eq_concat {α : Type} (f : α → String) (l : List α)
    (init : String) :
    l.foldl (fun acc x => acc ++ f x) init = init ++ concat_blocks (l.map f) := by
  induction l generalizing init with
  | nil => simp [concat_blocks, String.append_empty]
  | cons x xs ih =>
    rw [List.map_cons, List.foldl_cons, ih, concat_blocks, String.append_assoc]

lemma build_context_eq (results : List Hit) :
    build_context results = concat_blocks (context_blocks results) := by
  unfold build_context context_blocks
  rw [foldl_append_eq_concat, String.empty_append]

lemma context_blocks_length (results : List Hit) :
    (context_blocks results).length = results.length := by
  simp [context_blocks]

lemma context_blocks_getElem? (results : List Hit) (i : Nat) :
    (context_blocks results)[i]?
      = (results[i]?).map (fun h => document_block i h.source.text) := by
  simp only [context_blocks, List.getElem?_map, List.getElem?_enum]
  cases results[i]? <;> rfl

/-- **C1.** For every query string, embedding vector and result count, the
payload composed by `hybrid_search` carries exactly two clauses under
`query.hybrid.queries` — a `match` clause on the `text` field holding the
query string and a `knn` clause on the `embedding` field holding the
vector — and its `_source` section excludes the `embedding` field from
returned sources. -/
theorem hybrid_payload_two_clauses_and_source_exclude
    (q : String) (v : List Rat) (k : Nat) :
    ∃ c1 c2 : Json,
      (query_body q v k).path ["query", "hybrid", "queries"]
          = some (Json.arr [c1, c2])
      ∧ c1.path ["match", "text", "query"] = some (Json.str q)
      ∧ c2.path ["knn", "embedding", "vector"]
          = some (Json.arr (v.map Json.num))
      ∧ (query_body q v k).path ["_source", "exclude"]
          = some (Json.arr [Json.str "embedding"]) :=
  ⟨match_clause q, knn_clause v k, rfl, rfl, rfl, rfl⟩

/-- **C9.** In every composed payload, the `k` of the knn clause and the
top-level `size` both equal the `top_k` argument, and `hybrid_search`
defaults `top_k` to 5 when the argument is omitted. -/
theorem knn_k_matches_size (q : String) (v : List Rat) (k : Nat) :
    (query_body q v k).path ["query", "hybrid", "queries"]
        = some (Json.arr [match_clause q, knn_clause v k])
    ∧ (knn_clause v k).path ["knn", "embedding", "k"] = some (Json.num k)
    ∧ (query_body q v k).path ["size"] = some (Json.num k)
    ∧ ∀ (client : OpenSearchClient) (index : String),
        hybrid_search_traced client index q v
          = hybrid_search_traced client index q v 5 :=
  ⟨rfl, rfl, rfl, fun _ _ => rfl⟩

/-- **C3.** The prompt builder is deterministic: two runs on equal
(query, ordered hit list) inputs produce byte-identical prompt text. -/
theorem prompt_builder_deterministic
    (q1 q2 : String) (r1 r2 : List Hit) (m1 m2 : String)
    (hq : q1 = q2) (hr : r1 = r2) :
    (generate_response_with_ollama q1 r1 m1).1
      = (generate_response_with_ollama q2 r2 m2).1 := by
  subst hq; subst hr; rfl

theorem prompt_builder_deterministic_witness :
    (generate_response_with_ollama "q" [] "model-a").1
      = (generate_response_with_ollama "q" [] "model-b").1 :=
  prompt_builder_deterministic "q" "q" [] [] "model-a" "model-b" rfl rfl

/-- **C4.** For every hit list of length N and every query, the rendered
prompt is exactly the fixed preamble, then the concatenation of one
`Document i+1` block per hit carrying that hit's full text, then the
question: the block list has length N and its i-th block is built from the
i-th hit of the input list, so the labels are numbered in input order with
no truncation, deduplication or budget enforcement. -/
theorem prompt_has_one_block_per_hit (q : String) (results : List Hit)
    (m : String) :
    (generate_response_with_ollama q results m).1
        = prompt_intro ++ concat_blocks (context_blocks results)
            ++ "\n\nQuestion: " ++ q ++ "\n\nAnswer: "
    ∧ (context_blocks results).length = results.length
    ∧ ∀ i : Nat, (context_blocks results)[i]?
        = (results[i]?).map (fun h => document_block i h.source.text) := by
  refine ⟨?_, context_blocks_length results, context_blocks_getElem? results⟩
  show prompt_intro ++ build_context results ++ _ ++ _ ++ _ = _
  rw [build_context_eq]

/-- **C5.** With an empty hit list the context section of the prompt is
empty — no `Document` block at all — while the fixed preamble and the
original question appear verbatim. -/
theorem empty_hits_prompt (q m : String) :
    build_context [] = ""
    ∧ context_blocks ([] : List Hit) = []
    ∧ (generate_response_with_ollama q [] m).1
        = prompt_intro ++ "" ++ "\n\nQuestion: " ++ q ++ "\n\nAnswer: "
    ∧ ∃ pre post, (generate_response_with_ollama q [] m).1
        = pre ++ q ++ post :=
  ⟨rfl, rfl, rfl,
   ⟨prompt_intro ++ "" ++ "\n\nQuestion: ", "\n\nAnswer: ", rfl⟩⟩

/-- **C2.** If the pipelined search call raises `TypeError`,
`hybrid_search` makes exactly one retry — against the same index, with the
byte-identical query body, without the pipeline parameter — returns the
retry's hit list unchanged when it succeeds, and propagates the retry's
error (even another `TypeError`) without any further attempt. -/
theorem pipeline_fallback_retries_once (client : OpenSearchClient)
    (index q : String) (v : List Rat) (k : Nat)
    (h1 : client.search index (query_body q v k) (some pipeline_params)
            = .error .typeError) :
    (hybrid_search_traced client index q v k).2
        = [⟨index, query_body q v k, some pipeline_params⟩,
           ⟨index, query_body q v k, none⟩]
    ∧ (∀ r : SearchResponse,
        client.search index (query_body q v k) none = .ok r →
          hybrid_search client index q v k = .ok r.hits.hits)
    ∧ (∀ e : SearchError,
        client.search index (query_body q v k) none = .error e →
          hybrid_search client index q v k = .error e) := by
  refine ⟨?_, ?_, ?_⟩
  · simp only [hybrid_search_traced, h1]
    cases client.search index (query_body q v k) none <;> rfl
  · intro r h2
    simp only [hybrid_search, hybrid_search_traced, h1, h2]
  · intro e h2
    simp only [hybrid_search, hybrid_search_traced, h1, h2]

/-- A sample engine response used to instantiate the search theorems. -/
def demo_response : SearchResponse :=
  { took := 7, timed_out := false,
    hits := { max_score := some 1,
              hits := [ { score := 1,
                          source := { text := "ice loss", document_name := "doc",
                                      extra := [] },
                          extra := [] } ] } }

/-- A client whose transport rejects the pipeline parameter with a
`TypeError` and answers the parameterless retry. -/
def demo_fallback_client : OpenSearchClient :=
  { config := client_settings,
    search := fun _ _ params =>
      match params with
      | some _ => .error .typeError
      | none => .ok demo_response }

theorem pipeline_fallback_retries_once_witness :
    hybrid_search demo_fallback_client "documents" "q" [1, 0] 3
      = .ok demo_response.hits.hits :=
  (pipeline_fallback_retries_once demo_fallback_client "documents" "q" [1, 0] 3
    rfl).2.1 demo_response rfl

/-- **C6.** Every hit list returned by `hybrid_search` is exactly the
`hits.hits` array of an engine response to the composed payload — no local
re-ranking, filtering or rewriting happens between the engine response and
the returned list. -/
theorem hybrid_search_returns_hits_unchanged (client : OpenSearchClient)
    (index q : String) (v : List Rat) (k : Nat) (hits : List Hit)
    (h : hybrid_search client index q v k = .ok hits) :
    ∃ (params : Option (List (String × String))) (r : SearchResponse),
      client.search index (query_body q v k) params = .ok r
        ∧ hits = r.hits.hits := by
  unfold hybrid_search hybrid_search_traced at h
  cases h1 : client.search index (query_body q v k) (some pipeline_params) with
  | ok r =>
    refine ⟨some pipeline_params, r, h1, ?_⟩
    simp only [h1] at h
    exact (Except.ok.injEq _ _ ▸ h).symm
  | error e =>
    cases e with
    | typeError =>
      cases h2 : client.search index (query_body q v k) none with
      | ok r =>
        refine ⟨none, r, h2, ?_⟩
        simp only [h1, h2] at h
        exact (Except.ok.injEq _ _ ▸ h).symm
      | error e2 =>
        simp only [h1, h2] at h
        exact Except.noConfusion h
    | connectionError msg =>
      simp only [h1] at h
      exact Except.noConfusion h
    | notFound msg =>
      simp only [h1] at h
      exact Except.noConfusion h
    | other msg =>
      simp only [h1] at h
      exact Except.noConfusion h

/-- A client whose transport accepts the pipeline parameter at once. -/
def demo_ok_client : OpenSearchClient :=
  { config := client_settings,
    search := fun _ _ _ => .ok demo_response }

theorem hybrid_search_returns_hits_unchanged_witness :
    ∃ (params : Option (List (String × String))) (r : SearchResponse),
      demo_ok_client.search "documents" (query_body "q" [1, 0] 5) params = .ok r
        ∧ demo_response.hits.hits = r.hits.hits :=
  hybrid_search_returns_hits_unchanged demo_ok_client "documents" "q" [1, 0] 5
    demo_response.hits.hits rfl

/-- **C7 (amended).** The query composer never issues more than one retry:
every invocation of `hybrid_search` makes at most two transport calls, the
second only being the documented pipeline-parameter fallback; the client
handle, however, is constructed with `max_retries = 3` and
`retry_on_timeout = True`, delegating up to three further transport-level
retries of timed-out requests to the client library. -/
theorem at_most_one_local_retry (client : OpenSearchClient)
    (index q : String) (v : List Rat) (k : Nat) :
    (hybrid_search_traced client index q v k).2.length ≤ 2
    ∧ client_settings.max_retries = 3
    ∧ client_settings.retry_on_timeout = true := by
  refine ⟨?_, rfl, rfl⟩
  cases h1 : client.search index (query_body q v k) (some pipeline_params) with
  | ok r => simp [hybrid_search_traced, h1]
  | error e =>
    cases e with
    | typeError =>
      cases h2 : client.search index (query_body q v k) none with
      | ok r => simp [hybrid_search_traced, h1, h2]
      | error e2 => simp [hybrid_search_traced, h1, h2]
    | connectionError msg => simp [hybrid_search_traced, h1]
    | notFound msg => simp [hybrid_search_traced, h1]
    | other msg => simp [hybrid_search_traced, h1]

/-- **C7 (counterexample).** The claim that no error class is ever retried
more than once fails at the client construction: the handle is built with
`retry_on_timeout = True`, yet its configured retry cap is 3, not at most
1, so timed-out requests may be retried up to three times by the transport. -/
theorem connection_retries_not_bounded_by_one :
    ¬ (client_settings.retry_on_timeout = true →
        client_settings.max_retries ≤ 1) := by
  decide

/-- **C8.** For a deterministic provider — one whose non-streaming
completion equals the concatenation of its streamed chunks — the string
accumulated by the relay loop, concatenating each chunk's text in arrival
order with no modification, equals the non-streaming completion for the
same (model, prompt) pair. -/
theorem stream_relay_matches_generate (o : OllamaProvider)
    (model_name prompt : String)
    (hdet : o.generate model_name prompt
      = concat_blocks ((o.generate_stream model_name prompt).map
          (fun c => c.response))) :
    stream_relay o model_name prompt = o.generate model_name prompt := by
  rw [hdet]
  unfold stream_relay
  rw [foldl_append_eq_concat, String.empty_append]

/-- A deterministic sample provider: the stream chunks concatenate to the
non-streaming completion. -/
def demo_ollama : OllamaProvider :=
  { generate_stream := fun _ _ => [⟨"Hel", false⟩, ⟨"lo", true⟩],
    generate := fun _ _ => "Hello" }

theorem stream_relay_matches_generate_witness :
    stream_relay demo_ollama "llama3" "a prompt"
      = demo_ollama.generate "llama3" "a prompt" :=
  stream_relay_matches_generate demo_ollama "llama3" "a prompt" rfl

/-- **C10.** The prompt depends only on the query and each hit's
`_source.text`: two hit lists that agree pointwise on the text field
produce identical prompts, whatever their scores, document names or other
metadata. -/
theorem prompt_noninterference (q m : String) (r1 r2 : List Hit)
    (h : r1.map (fun h => h.source.text) = r2.map (fun h => h.source.text)) :
    (generate_response_with_ollama q r1 m).1
      = (generate_response_with_ollama q r2 m).1 := by
  have hb : context_blocks r1 = context_blocks r2 := by
    apply List.ext_getElem?
    intro i
    have h1 := congrArg (fun l => l[i]?) h
    simp only [List.getElem?_map] at h1
    rw [context_blocks_getElem?, context_blocks_getElem?]
    have hm : ∀ (o : Option Hit),
        o.map (fun h => document_block i h.source.text)
          = (o.map (fun h => h.source.text)).map
              (fun t => document_block i t) := by
      intro o; cases o <;> rfl
    rw [hm, hm, h1]
  have hc : build_context r1 = build_context r2 := by
    rw [build_context_eq, build_context_eq, hb]
  simp only [generate_response_with_ollama, hc]

/-- Two single-hit lists with equal source text but different scores and
metadata, instantiating the noninterference theorem. -/
def demo_hit_low : Hit :=
  { score := 1, source := { text := "glacier", document_name := "a.pdf",
                            extra := [] }, extra := [] }

/-- See `demo_hit_low`. -/
def demo_hit_high : Hit :=
  { score := 9, source := { text := "glacier", document_name := "b.pdf",
                            extra := [("page", Json.num 3)] },
    extra := [("_id", Json.str "x")] }

theorem prompt_noninterference_witness :
    (generate_response_with_ollama "q" [demo_hit_low] "m").1
      = (generate_response_with_ollama "q" [demo_hit_high] "m").1 :=
  prompt_noninterference "q" "m" [demo_hit_low] [demo_hit_high] rfl

end RAG
